import Mathlib

/-!
Shallow embedding of `src/main.py` (Chemical Weathering Feedback Box Model).

The script is a straight-line explicit-Euler integration over three scalar
arrays `rock`, `atmo`, `T` of length `time_steps`, initialised from the
constants `rock_0`, `atmo_0`, `T_0` and evolved by the loop (lines 37-40):

  rock[i] = rock[i-1] - c1 * rock[i-1] + c2 * atmo[i-1]
  atmo[i] = atmo[i-1] + c1 * rock[i-1] - c2 * atmo[i-1]
  T[i]    = T_0 + c3 * (atmo[i] - atmo_0)

We embed the real-number arithmetic exactly over ℚ.  Array cell `x[i]` is
the `i`-th entry of the corresponding produced sequence, realised below by
the step-indexed function `state` and the list-valued `rockSeq`, `atmoSeq`,
`TSeq`.
-/

namespace WeatheringModel

/-- The modifiable constants of `main.py`: rate constants (lines 13-15) and
initial conditions (lines 18-20). -/
structure Config where
  c1 : ℚ
  c2 : ℚ
  c3 : ℚ
  rock_0 : ℚ
  atmo_0 : ℚ
  T_0 : ℚ
deriving DecidableEq

/-- One row of the three arrays: the values `rock[i]`, `atmo[i]`, `T[i]`. -/
structure State where
  rock : ℚ
  atmo : ℚ
  T : ℚ
deriving DecidableEq

/-- The initial state set at lines 32-34: `rock[0] = rock_0`,
`atmo[0] = atmo_0`, `T[0] = T_0`. -/
def init (cfg : Config) : State :=
  { rock := cfg.rock_0, atmo := cfg.atmo_0, T := cfg.T_0 }

/-- One iteration of the main model loop (lines 38-40), mapping the row at
index `i-1` to the row at index `i`.  `s.rock` and `s.atmo` are the array
cells `rock[i-1]` and `atmo[i-1]`, which the loop body reads before the
cells at index `i` are written; the temperature line reads the freshly
written `atmo[i]`. -/
def stepState (cfg : Config) (s : State) : State :=
  let rockNew := s.rock - cfg.c1 * s.rock + cfg.c2 * s.atmo
  let atmoNew := s.atmo + cfg.c1 * s.rock - cfg.c2 * s.atmo
  let TNew := cfg.T_0 + cfg.c3 * (atmoNew - cfg.atmo_0)
  { rock := rockNew, atmo := atmoNew, T := TNew }

/-- `state cfg i` is the triple `(rock[i], atmo[i], T[i])` after the loop
has filled index `i`: index 0 from lines 32-34, index `i+1` from the loop
body applied to index `i`. -/
def state (cfg : Config) : Nat → State
  | 0 => init cfg
  | i + 1 => stepState cfg (state cfg i)

/-- The produced `rock` array (line 27 allocation, filled by the loop):
length `n`, entry `i` equal to `rock[i]`. -/
def rockSeq (cfg : Config) (n : Nat) : List ℚ :=
  (List.range n).map fun i => (state cfg i).rock

/-- The produced `atmo` array (line 28 allocation, filled by the loop). -/
def atmoSeq (cfg : Config) (n : Nat) : List ℚ :=
  (List.range n).map fun i => (state cfg i).atmo

/-- The produced `T` array (line 29 allocation, filled by the loop). -/
def TSeq (cfg : Config) (n : Nat) : List ℚ :=
  (List.range n).map fun i => (state cfg i).T

/-- The index sequence of the main loop, `range(1, time_steps)` at line 37:
the loop body runs once per element. -/
def loopIndices (n : Nat) : List Nat :=
  (List.range n).drop 1

/-- The default configuration compiled into `main.py`: `c1 = 0.01`,
`c2 = 0.005`, `c3 = 0.02`, `rock_0 = 1000`, `atmo_0 = 300`, `T_0 = 15`. -/
def defaultConfig : Config :=
  { c1 := 1/100, c2 := 1/200, c3 := 1/50,
    rock_0 := 1000, atmo_0 := 300, T_0 := 15 }

/-- The script with the step count `time_steps` (line 23) made a parameter,
following the numpy semantics of the allocation and the initial write:
`np.zeros(n)` with `n < 0` raises `ValueError` (line 27), and with `n = 0`
the write `rock[0] = rock_0` at line 32 raises `IndexError` on the empty
array; otherwise the three filled sequences are produced. -/
def runScript (cfg : Config) (n : Int) : Except String (List ℚ × List ℚ × List ℚ) :=
  if n < 0 then
    Except.error "ValueError: negative dimensions are not allowed"
  else if n = 0 then
    Except.error "IndexError: index 0 is out of bounds for axis 0 with size 0"
  else
    Except.ok (rockSeq cfg n.toNat, atmoSeq cfg n.toNat, TSeq cfg n.toNat)

/-- One loop iteration moves mass between the boxes but leaves the total
unchanged: the amount added to `atmo` is exactly the amount subtracted
from `rock`, both computed from the same previous-step values. -/
lemma stepState_mass (cfg : Config) (s : State) :
    (stepState cfg s).rock + (stepState cfg s).atmo = s.rock + s.atmo := by
  simp only [stepState]
  ring

/-- Total mass at every index equals the initial total. -/
lemma state_mass (cfg : Config) (i : Nat) :
    (state cfg i).rock + (state cfg i).atmo = cfg.rock_0 + cfg.atmo_0 := by
  induction i with
  | zero => rfl
  | succ j ih => rw [state, stepState_mass, ih]

/-- Claim C1: for every configuration and every step index `i ≥ 1`, the
trajectory entries satisfy the explicit-Euler recurrence computed from the
previous-step values: `rock[i] = rock[i-1] - c1*rock[i-1] + c2*atmo[i-1]`,
`atmo[i] = atmo[i-1] + c1*rock[i-1] - c2*atmo[i-1]`, and
`T[i] = T_0 + c3*(atmo[i] - atmo_0)`. -/
theorem step_recurrence (cfg : Config) (i : Nat) (h : 1 ≤ i) :
    (state cfg i).rock
        = (state cfg (i - 1)).rock - cfg.c1 * (state cfg (i - 1)).rock
            + cfg.c2 * (state cfg (i - 1)).atmo
      ∧ (state cfg i).atmo
        = (state cfg (i - 1)).atmo + cfg.c1 * (state cfg (i - 1)).rock
            - cfg.c2 * (state cfg (i - 1)).atmo
      ∧ (state cfg i).T
        = cfg.T_0 + cfg.c3 * ((state cfg i).atmo - cfg.atmo_0) := by
  obtain ⟨j, rfl⟩ : ∃ j, i = j + 1 := ⟨i - 1, by omega⟩
  refine ⟨?_, ?_, ?_⟩ <;> simp [state, stepState]

/-- Claim C1, witness: the recurrence instantiated at the default
configuration and step 1. -/
theorem step_recurrence_witness :
    1 ≤ 1 ∧
      ((state defaultConfig 1).rock
          = (state defaultConfig 0).rock - defaultConfig.c1 * (state defaultConfig 0).rock
              + defaultConfig.c2 * (state defaultConfig 0).atmo
        ∧ (state defaultConfig 1).atmo
          = (state defaultConfig 0).atmo + defaultConfig.c1 * (state defaultConfig 0).rock
              - defaultConfig.c2 * (state defaultConfig 0).atmo
        ∧ (state defaultConfig 1).T
          = defaultConfig.T_0 + defaultConfig.c3 * ((state defaultConfig 1).atmo - defaultConfig.atmo_0)) :=
  ⟨by decide, step_recurrence defaultConfig 1 (by decide)⟩

/-- Claim C2, counterexample: there is no configuration and step at which
`c1*rock[i-1] ≠ c2*atmo[i-1]` makes `rock[i] + atmo[i]` differ from
`rock[i-1] + atmo[i-1]`: in exact arithmetic the update conserves the
total regardless of the fluxes, refuting the claim as stated. -/
theorem mass_nonconservation_false :
    ¬ ∃ (cfg : Config) (i : Nat), 1 ≤ i
        ∧ cfg.c1 * (state cfg (i - 1)).rock ≠ cfg.c2 * (state cfg (i - 1)).atmo
        ∧ (state cfg i).rock + (state cfg i).atmo
            ≠ (state cfg (i - 1)).rock + (state cfg (i - 1)).atmo := by
  rintro ⟨cfg, i, hi, _, hne⟩
  exact hne ((state_mass cfg i).trans (state_mass cfg (i - 1)).symm)

/-- Claim C2, amended: in exact arithmetic the total `rock[i] + atmo[i]` is
conserved across every step, whether or not `c1*rock[i-1] = c2*atmo[i-1]`;
when the two fluxes differ, the individual reservoir `rock` does change
across the step. -/
theorem mass_conserved_reservoirs_move (cfg : Config) (i : Nat) (h : 1 ≤ i) :
    (state cfg i).rock + (state cfg i).atmo
        = (state cfg (i - 1)).rock + (state cfg (i - 1)).atmo
      ∧ (cfg.c1 * (state cfg (i - 1)).rock ≠ cfg.c2 * (state cfg (i - 1)).atmo
          → (state cfg i).rock ≠ (state cfg (i - 1)).rock) := by
  obtain ⟨j, rfl⟩ : ∃ j, i = j + 1 := ⟨i - 1, by omega⟩
  simp only [Nat.add_sub_cancel]
  refine ⟨(state_mass cfg (j + 1)).trans (state_mass cfg j).symm, ?_⟩
  intro hflux heq
  apply hflux
  have : (state cfg (j + 1)).rock
      = (state cfg j).rock - cfg.c1 * (state cfg j).rock + cfg.c2 * (state cfg j).atmo := by
    simp [state, stepState]
  rw [this] at heq
  linarith

/-- Claim C2, witness: the amended statement at the default configuration
and step 1, where the fluxes differ (`10 ≠ 1.5`). -/
theorem mass_conserved_reservoirs_move_witness :
    1 ≤ 1 ∧
      ((state defaultConfig 1).rock + (state defaultConfig 1).atmo
          = (state defaultConfig 0).rock + (state defaultConfig 0).atmo
        ∧ (defaultConfig.c1 * (state defaultConfig 0).rock
              ≠ defaultConfig.c2 * (state defaultConfig 0).atmo
            → (state defaultConfig 1).rock ≠ (state defaultConfig 0).rock)) :=
  ⟨by decide, mass_conserved_reservoirs_move defaultConfig 1 (by decide)⟩

/-- Claim C3: for every configuration and every index, the total carbon
mass equals the initial total: `rock[i] + atmo[i] = rock_0 + atmo_0` in
exact arithmetic, because the loop adds to `atmo` exactly what it
subtracts from `rock`. -/
theorem mass_invariant (cfg : Config) (i : Nat) :
    (state cfg i).rock + (state cfg i).atmo = cfg.rock_0 + cfg.atmo_0 := by
  induction i with
  | zero => rfl
  | succ j ih => rw [state, stepState_mass, ih]

/-- Claim C4, counterexample: at the default configuration and step 1 the
atmosphere update does NOT use the already-updated rock value:
`atmo[1] = 308.5` but `atmo[0] + c1*rock[1] - c2*atmo[0] = 308.415`.
Line 39 of `main.py` reads `rock[i-1]`, an array cell the loop body has
not overwritten, so the claimed semi-implicit coupling is refuted. -/
theorem atmo_uses_updated_rock_false :
    (state defaultConfig 1).atmo
      ≠ (state defaultConfig 0).atmo
          + defaultConfig.c1 * (state defaultConfig 1).rock
          - defaultConfig.c2 * (state defaultConfig 0).atmo := by
  norm_num [state, stepState, init, defaultConfig]

/-- Claim C4, amended: within a single step the atmosphere update is
computed from the previous-step rock value: for every configuration and
every `i ≥ 1`, `atmo[i] = atmo[i-1] + c1*rock[i-1] - c2*atmo[i-1]`. -/
theorem atmo_uses_previous_rock (cfg : Config) (i : Nat) (h : 1 ≤ i) :
    (state cfg i).atmo
      = (state cfg (i - 1)).atmo + cfg.c1 * (state cfg (i - 1)).rock
          - cfg.c2 * (state cfg (i - 1)).atmo := by
  obtain ⟨j, rfl⟩ : ∃ j, i = j + 1 := ⟨i - 1, by omega⟩
  simp [state, stepState]

/-- Claim C4, witness: the amended statement at the default configuration
and step 1. -/
theorem atmo_uses_previous_rock_witness :
    1 ≤ 1 ∧
      (state defaultConfig 1).atmo
        = (state defaultConfig 0).atmo
            + defaultConfig.c1 * (state defaultConfig 0).rock
            - defaultConfig.c2 * (state defaultConfig 0).atmo :=
  ⟨by decide, atmo_uses_previous_rock defaultConfig 1 (by decide)⟩

/-- Claim C5: with the default configuration the first computed step is
`rock[1] = 991.5`, `atmo[1] = 308.5`, `T[1] = 15.17`, in exact rational
arithmetic. -/
theorem first_step_defaults :
    (state defaultConfig 1).rock = 991.5
      ∧ (state defaultConfig 1).atmo = 308.5
      ∧ (state defaultConfig 1).T = 15.17 := by
  refine ⟨?_, ?_, ?_⟩ <;> norm_num [state, stepState, init, defaultConfig]

/-- Claim C6: if `c1 = 0` and `c2 = 0` the trajectory is constant: for
every index `i`, `rock[i] = rock_0`, `atmo[i] = atmo_0` and `T[i] = T_0`. -/
theorem zero_rates_constant (cfg : Config) (h1 : cfg.c1 = 0) (h2 : cfg.c2 = 0) (i : Nat) :
    (state cfg i).rock = cfg.rock_0
      ∧ (state cfg i).atmo = cfg.atmo_0
      ∧ (state cfg i).T = cfg.T_0 := by
  induction i with
  | zero => exact ⟨rfl, rfl, rfl⟩
  | succ j ih =>
    obtain ⟨hr, ha, _⟩ := ih
    refine ⟨?_, ?_, ?_⟩ <;> simp [state, stepState, hr, ha, h1, h2]

/-- Claim C6, witness: a configuration with both rates zero is constant at
index 2. -/
theorem zero_rates_constant_witness :
    let cfg : Config :=
      { c1 := 0, c2 := 0, c3 := 1, rock_0 := 2, atmo_0 := 3, T_0 := 4 }
    cfg.c1 = 0 ∧ cfg.c2 = 0 ∧
      ((state cfg 2).rock = cfg.rock_0
        ∧ (state cfg 2).atmo = cfg.atmo_0
        ∧ (state cfg 2).T = cfg.T_0) :=
  ⟨rfl, rfl, zero_rates_constant _ rfl rfl 2⟩

/-- Claim C7: for every step count `n ≥ 1`, each of the three produced
sequences has length exactly `n`. -/
theorem seq_lengths (cfg : Config) (n : Nat) (h : 1 ≤ n) :
    (rockSeq cfg n).length = n
      ∧ (atmoSeq cfg n).length = n
      ∧ (TSeq cfg n).length = n := by
  refine ⟨?_, ?_, ?_⟩ <;> simp [rockSeq, atmoSeq, TSeq]

/-- Claim C7, witness: the lengths at the default configuration with
`n = 3`. -/
theorem seq_lengths_witness :
    1 ≤ 3 ∧
      ((rockSeq defaultConfig 3).length = 3
        ∧ (atmoSeq defaultConfig 3).length = 3
        ∧ (TSeq defaultConfig 3).length = 3) :=
  ⟨by decide, seq_lengths defaultConfig 3 (by decide)⟩

/-- Claim C8: for every configuration and every step count `n ≥ 1`, the
first entries of the produced sequences equal the initial state:
`rock[0] = rock_0`, `atmo[0] = atmo_0`, `T[0] = T_0`. -/
theorem seq_head (cfg : Config) (n : Nat) (h : 1 ≤ n) :
    (rockSeq cfg n).head? = some cfg.rock_0
      ∧ (atmoSeq cfg n).head? = some cfg.atmo_0
      ∧ (TSeq cfg n).head? = some cfg.T_0 := by
  obtain ⟨m, rfl⟩ : ∃ m, n = m + 1 := ⟨n - 1, by omega⟩
  refine ⟨?_, ?_, ?_⟩ <;>
    simp [rockSeq, atmoSeq, TSeq, List.range_succ_eq_map, state, init]

/-- Claim C8, witness: the first entries at the default configuration with
`n = 2`. -/
theorem seq_head_witness :
    1 ≤ 2 ∧
      ((rockSeq defaultConfig 2).head? = some defaultConfig.rock_0
        ∧ (atmoSeq defaultConfig 2).head? = some defaultConfig.atmo_0
        ∧ (TSeq defaultConfig 2).head? = some defaultConfig.T_0) :=
  ⟨by decide, seq_head defaultConfig 2 (by decide)⟩

/-- Claim C9: for `n = 1` the produced trajectory is the initial state
alone and the loop index sequence `range(1, 1)` is empty, so the loop body
executes zero times and no update arithmetic is performed. -/
theorem single_step_trajectory (cfg : Config) :
    rockSeq cfg 1 = [cfg.rock_0]
      ∧ atmoSeq cfg 1 = [cfg.atmo_0]
      ∧ TSeq cfg 1 = [cfg.T_0]
      ∧ loopIndices 1 = [] := by
  refine ⟨?_, ?_, ?_, ?_⟩ <;>
    simp [rockSeq, atmoSeq, TSeq, loopIndices, List.range_succ, state, init]

/-- Claim C10: for every step count `n ≤ 0` the script raises an error
before the model loop runs (numpy rejects a negative allocation; writing
`rock[0]` fails on a size-0 array), rather than silently returning an
empty or singleton trajectory. -/
theorem nonpositive_steps_error (cfg : Config) (n : Int) (h : n ≤ 0) :
    ∃ msg, runScript cfg n = Except.error msg := by
  unfold runScript
  split_ifs with h1 h2
  · exact ⟨_, rfl⟩
  · exact ⟨_, rfl⟩
  · omega

/-- Claim C10, witness: the script errors at step counts 0 and -5. -/
theorem nonpositive_steps_error_witness :
    ((0 : Int) ≤ 0 ∧ ∃ msg, runScript defaultConfig 0 = Except.error msg)
      ∧ ((-5 : Int) ≤ 0 ∧ ∃ msg, runScript defaultConfig (-5) = Except.error msg) :=
  ⟨⟨by decide, nonpositive_steps_error defaultConfig 0 (by decide)⟩,
   ⟨by decide, nonpositive_steps_error defaultConfig (-5) (by decide)⟩⟩

end WeatheringModel
